import Mathlib

/-!
Verification development for the PZEM004T V3.0 Modbus-RTU sensor driver
(src/code/espurna/sensors/PZEM004TV30Sensor.h).

The shallow embedding below translates the protocol core of the driver into
executable Lean definitions: bytes are natural numbers (callers of the C++
code pass uint8_t values, i.e. naturals below 256), the fixed 25-byte
std::array buffers are lists of naturals of length 25, machine-integer
truncations are explicit (&&& 0xff, % 256), doubles are modelled as
rationals, and the serial read loop is modelled as a function of the list of
bytes the wire delivers before the timeout (exhausting the list models the
timeout elapsing).
-/

set_option autoImplicit false
set_option maxRecDepth 20000

namespace PZEM004TV30

/-- BufferSize from the source: capacity of both the request builder and the
response buffer (std::array of 25 uint8_t). -/
def BufferSize : Nat := 25

/-- DefaultAddress from the source: stock device address 0xf8. -/
def DefaultAddress : Nat := 0xf8

/-- ReadInputCode from the source: Modbus function 0x04, read input registers. -/
def ReadInputCode : Nat := 0x04

/-- WriteCode from the source: Modbus function 0x06, write single register. -/
def WriteCode : Nat := 0x06

/-- ResetEnergyCode from the source: vendor function 0x42, reset energy. -/
def ResetEnergyCode : Nat := 0x42

/-- ErrorMask from the source: the Modbus exception-indicator bit 0x80. -/
def ErrorMask : Nat := 0x80

/-- One reflect-and-XOR step of the crc16_update loop body from the source:
if the low bit is set, shift right and xor the polynomial 0xa001, otherwise
just shift right. -/
def crcStep (crc : Nat) : Nat :=
  if crc &&& 1 = 1 then (crc >>> 1) ^^^ 0xa001 else crc >>> 1

/-- crc16_update from the source (the lambda inside crc16modbus): xor the
next byte into the register, then run 8 reflect-and-XOR steps. -/
def crc16_update (crc value : Nat) : Nat :=
  (List.range 8).foldl (fun c _ => crcStep c) (crc ^^^ value)

/-- crc16modbus from the source: fold crc16_update over the data bytes
starting from register 0xffff.  The C++ function receives a pointer and a
size; the list stands for exactly the size-long byte range. -/
def crc16modbus (data : List Nat) : Nat :=
  data.foldl crc16_update 0xffff

/-- Reference Modbus CRC16, table-driven formulation: the classic
byte-at-a-time table algorithm, written independently of the source's
bit-at-a-time loop.  Entry i of the conceptual table is 8 reflect-and-XOR
steps applied to i. -/
def crcTableEntry (i : Nat) : Nat :=
  (List.range 8).foldl (fun c _ => crcStep c) (i &&& 0xff)

/-- One byte of the reference table-driven CRC: shift the register right by
8 and xor the table entry selected by the low byte of (register xor input). -/
def crcRefUpdate (crc value : Nat) : Nat :=
  (crc >>> 8) ^^^ crcTableEntry ((crc ^^^ value) &&& 0xff)

/-- Reference Modbus CRC16 over a byte sequence, initial register 0xffff. -/
def crc16reference (data : List Nat) : Nat :=
  data.foldl crcRefUpdate 0xffff

/-- adu_builder from the source.  The C++ buffer is std::array of 25
uint8_t, aggregate-initialised so that all bytes past the first two are
zero; here it is a list of 25 naturals updated with List.set (List.set
leaves the list unchanged on an out-of-range index, so the oob flag below
records any write the C++ code performs at an index at or past BufferSize,
which on the std::array is an out-of-bounds write, undefined behaviour). -/
structure adu_builder where
  buffer : List Nat
  size : Nat
  locked : Bool
  oob : Bool
  deriving DecidableEq, Repr

/-- adu_builder constructor from the source: first byte is the device
address, second the function code, remaining capacity zero-filled, size 2,
not locked. -/
def adu_builder.mk2 (device_address fcode : Nat) : adu_builder :=
  { buffer := device_address :: fcode :: List.replicate 23 0
    size := 2
    locked := false
    oob := false }

/-- adu_builder::add(uint8_t) from the source: append a 1-byte value unless
the builder is locked or the buffer is full.  The guard size < 25 keeps the
write at index size in bounds. -/
def adu_builder.add8 (b : adu_builder) (value : Nat) : adu_builder :=
  if ¬b.locked ∧ b.size < BufferSize then
    { b with buffer := b.buffer.set b.size value, size := b.size + 1 }
  else
    b

/-- adu_builder::add(uint16_t) from the source: append a 2-byte big-endian
value unless the builder is locked or two bytes do not fit.  The guard
size + 1 < 25 keeps both writes (at size and size + 1) in bounds. -/
def adu_builder.add16 (b : adu_builder) (value : Nat) : adu_builder :=
  if ¬b.locked ∧ b.size + 1 < BufferSize then
    { b with
        buffer := (b.buffer.set b.size ((value >>> 8) &&& 0xff)).set (b.size + 1) (value &&& 0xff)
        size := b.size + 2 }
  else
    b

/-- adu_builder::end from the source: if not yet locked, compute the CRC
over the bytes written so far and append it low byte first, then lock.  The
source performs the two writes with no bounds check at all; the oob flag is
set when either write lands at an index at or past BufferSize (which for
the 25-byte std::array is an out-of-bounds write). -/
def adu_builder.finalize (b : adu_builder) : adu_builder :=
  if ¬b.locked then
    let value := crc16modbus (b.buffer.take b.size)
    { b with
        buffer := (b.buffer.set b.size (value &&& 0xff)).set (b.size + 1) ((value >>> 8) &&& 0xff)
        size := b.size + 2
        locked := true
        oob := b.oob || decide (BufferSize ≤ b.size + 1) }
  else
    b

/-- modbusExpect from the source: expected reply length for a finalized
request, switching on the function code stored at buffer[1]. -/
def modbusExpect (builder : adu_builder) : Nat :=
  if ¬builder.locked then 0
  else if builder.buffer.getD 1 0 = ReadInputCode then
    if builder.size ≥ 6 then
      3 + (2 * (((builder.buffer.getD 4 0) <<< 8) ||| builder.buffer.getD 5 0)) + 2
    else 0
  else if builder.buffer.getD 1 0 = WriteCode then builder.size
  else if builder.buffer.getD 1 0 = ResetEnergyCode then builder.size
  else 0

/-- The read loop of modbusProcess from the source.  The stream is the list
of bytes the serial port delivers before the read timeout elapses (read()
calls returning -1 are no-ops in the source and are elided); acc holds the
bytes accepted so far (acc.length is the bytes counter); expect is the
mutable expected length, rewritten to 5 when the exception-indicator
function code arrives as the second byte.  Returns the final buffer
contents and the final expected length. -/
def modbusReadLoop (address code : Nat) : List Nat → List Nat → Nat → List Nat × Nat
  | [], acc, expect => (acc, expect)
  | c :: rest, acc, expect =>
    if expect ≤ acc.length then (acc, expect)
    else if acc.length = 0 ∧ c ≠ address then
      modbusReadLoop address code rest acc expect
    else if acc.length = 1 then
      if c = ErrorMask ||| code then
        modbusReadLoop address code rest (acc ++ [c % 256]) 5
      else if c ≠ code then
        modbusReadLoop address code rest [] expect
      else
        modbusReadLoop address code rest (acc ++ [c % 256]) expect
    else
      modbusReadLoop address code rest (acc ++ [c % 256]) expect

/-- Outcome classification of one modbusProcess call, mirroring the
post-loop branches of the source: length mismatch (timeout/framing, the
source records SENSOR_ERROR_OTHER), CRC mismatch (SENSOR_ERROR_CRC),
protocol exception (exception code surfaced, callback not invoked), or
success (buffer and byte count handed to the callback).  notLocked and
noReply are the two early returns before the read loop. -/
inductive ProcessResult where
  | notLocked
  | noReply
  | lengthError
  | crcError
  | exception (ecode : Nat)
  | success (buffer : List Nat) (size : Nat)
  deriving DecidableEq, Repr

/-- The read-and-classify phase of modbusProcess from the source, entered
once the request has been written: compute the expected length, run the
read loop, then classify in order - length mismatch, CRC mismatch,
exception bit, success. -/
def modbusProcessReply (builder : adu_builder) (address : Nat) (stream : List Nat) :
    ProcessResult :=
  let expect := modbusExpect builder
  if expect = 0 then .noReply
  else
    let code := builder.buffer.getD 1 0
    let p := modbusReadLoop address code stream [] expect
    let buffer := p.1
    let bytes := buffer.length
    if bytes ≠ p.2 then .lengthError
    else
      let received_crc := ((buffer.getD (bytes - 1) 0) <<< 8) ||| buffer.getD (bytes - 2) 0
      let crc := crc16modbus (buffer.take (bytes - 2))
      if received_crc ≠ crc then .crcError
      else if buffer.getD 1 0 &&& ErrorMask ≠ 0 then .exception (buffer.getD 2 0)
      else .success buffer bytes

/-- modbusProcess from the source, as a function of the delivered byte
stream: returns the bytes written to the serial port together with the
classified outcome.  A builder that is not locked returns before anything
is written; otherwise the full request is written and the reply phase
runs. -/
def modbusProcessRun (builder : adu_builder) (address : Nat) (stream : List Nat) :
    List Nat × ProcessResult :=
  if ¬builder.locked then ([], .notLocked)
  else (builder.buffer.take builder.size, modbusProcessReply builder address stream)

/-- The outcome component of modbusProcess. -/
def modbusProcessResult (builder : adu_builder) (address : Nat) (stream : List Nat) :
    ProcessResult :=
  (modbusProcessRun builder address stream).2

/-- errorToString from the source: map a Modbus exception code to its
human-readable reason. -/
def errorToString (error : Nat) : String :=
  if error = 0x01 then "Illegal function"
  else if error = 0x02 then "Illegal data address"
  else if error = 0x03 then "Illegal data value"
  else if error = 0x04 then "Device failure"
  else if error = 0x05 then "Acknowledged"
  else if error = 0x06 then "Busy"
  else if error = 0x08 then "Memory parity error"
  else "Unknown"

/-- Reading from the source.  The C++ doubles are modelled as rationals;
ok defaults to false exactly as in the source (the other members of a
default-constructed C++ Reading are indeterminate; the model uses 0, and no
claim relies on them while ok is false). -/
structure Reading where
  voltage : ℚ
  current : ℚ
  power_active : ℚ
  energy_active : ℚ
  frequency : ℚ
  power_factor : ℚ
  alarm : Bool
  ok : Bool
  deriving DecidableEq, Repr

/-- A default-constructed Reading: validity flag false. -/
def Reading.invalid : Reading :=
  { voltage := 0, current := 0, power_active := 0, energy_active := 0
    frequency := 0, power_factor := 0, alarm := false, ok := false }

/-- parseReading from the source: reject any size other than 25, then walk
an iterator starting 3 bytes in.  take2 reads a 16-bit big-endian value,
take4 reads a 32-bit value as two 16-bit big-endian halves with the low
half physically first; both guard on the distance to the end of the
25-byte buffer exactly as the source lambdas do. -/
def parseReading (buffer : List Nat) (size : Nat) : Reading :=
  if size ≠ 25 then Reading.invalid
  else
    let take2 := fun (it : Nat) =>
      if it + 2 ≤ 25 then
        ((((buffer.getD it 0) <<< 8) ||| buffer.getD (it + 1) 0, it + 2) : Nat × Nat)
      else (0, it)
    let take4 := fun (it : Nat) =>
      if it + 4 ≤ 25 then
        (((((buffer.getD (it + 2) 0) <<< 24) ||| ((buffer.getD (it + 3) 0) <<< 16))
          ||| (((buffer.getD it 0) <<< 8) ||| buffer.getD (it + 1) 0), it + 4) : Nat × Nat)
      else (0, it)
    let v := take2 3
    let c := take4 v.2
    let p := take4 c.2
    let e := take4 p.2
    let f := take2 e.2
    let pf := take2 f.2
    { voltage := (v.1 : ℚ) / 10
      current := (c.1 : ℚ) / 1000
      power_active := (p.1 : ℚ) / 10
      energy_active := (e.1 : ℚ) / 1000
      frequency := (f.1 : ℚ) / 10
      power_factor := (pf.1 : ℚ)
      alarm := (buffer.getD pf.2 0 == 0xff) && (buffer.getD (pf.2 + 1) 0 == 0xff)
      ok := true }

/-- energyDelta from the source, before the unit conversion: wraparound at
EnergyMax = 10000 kWh. -/
def energyDelta (last current : ℚ) : ℚ :=
  if last > current then current + (10000 - last) else current - last

/-- Modelled from the spec: espurna::sensor::Energy::asWattSeconds, the
conversion from kWh to the reporting unit (watt-seconds), lives in the
sensor framework outside src/; the spec fixes watt-seconds as the reporting
unit, and one kWh is 3600000 watt-seconds. -/
def asWattSeconds (kwh : ℚ) : ℚ :=
  kwh * 3600000

/-- Modelled from the spec: the three error classifications the driver
records in the _error member (the SENSOR_ERROR_* constants live in the
sensor framework outside src/); the spec only requires that the CRC
classification is distinct from the generic read-failure one. -/
inductive SensorError where
  | ok
  | crc
  | other
  deriving DecidableEq, Repr

/-- The driver state the exchange engine can touch: the retained last
Reading (_last_reading), the energy delta (_energy_delta) and the recorded
error classification (_error). -/
structure DriverState where
  last_reading : Reading
  energy_delta : ℚ
  error : SensorError
  deriving DecidableEq, Repr

/-- The freshly constructed driver: _last_reading is default-constructed
(ok = false, measurement members indeterminate, modelled by r0 with ok
forced to false) and _energy_delta has no initialiser at all in the source,
so it holds an indeterminate value e0. -/
def initDriverState (e0 : ℚ) (r0 : Reading) : DriverState :=
  { last_reading := { r0 with ok := false }, energy_delta := e0, error := .ok }

/-- The read-input-registers request built by modbusReadValues: start at
register 0, read 10 registers. -/
def readRequest (address : Nat) : adu_builder :=
  (((adu_builder.mk2 address ReadInputCode).add16 0).add16 10).finalize

/-- modbusReadValues from the source: clear _error, run the exchange, and
on a successfully parsed Reading update the energy delta (only when a prior
valid Reading exists) and replace the retained Reading; every failure
leaves the Reading and the delta untouched, recording .other on a length
mismatch and .crc on a CRC mismatch. -/
def modbusReadValues (address : Nat) (s : DriverState) (stream : List Nat) : DriverState :=
  let s0 : DriverState := { s with error := .ok }
  match modbusProcessResult (readRequest address) address stream with
  | .success buffer size =>
      let reading := parseReading buffer size
      if ¬reading.ok then s0
      else
        { s0 with
            energy_delta :=
              if s0.last_reading.ok ∧ reading.ok then
                asWattSeconds (energyDelta s0.last_reading.energy_active reading.energy_active)
              else s0.energy_delta
            last_reading := reading }
  | .lengthError => { s0 with error := .other }
  | .crcError => { s0 with error := .crc }
  | _ => s0

/-- value(index) from the source: the index-based accessor the reporting
framework pulls, in the declared magnitude order. -/
def value (s : DriverState) (index : Nat) : ℚ :=
  if index = 0 then s.last_reading.voltage
  else if index = 1 then s.last_reading.frequency
  else if index = 2 then s.last_reading.current
  else if index = 3 then s.last_reading.power_active
  else if index = 4 then s.last_reading.power_factor
  else if index = 5 then s.energy_delta
  else if index = 6 then s.last_reading.energy_active
  else 0

/-- The write-single-register request built by modbusChangeAddress:
register 2, value = the new address. -/
def changeAddressRequest (address toAddr : Nat) : adu_builder :=
  (((adu_builder.mk2 address WriteCode).add16 2).add16 toAddr).finalize

/-- modbusChangeAddress from the source: an address equal to the stored one
short-circuits to true with no exchange; otherwise the request is sent and
the result is true exactly when the exchange succeeds and the peer echoed
the request verbatim (std::equal over the first size bytes). -/
def modbusChangeAddress (address toAddr : Nat) (stream : List Nat) : Bool :=
  if address = toAddr then true
  else
    match modbusProcessResult (changeAddressRequest address toAddr) address stream with
    | .success buffer size =>
        decide ((changeAddressRequest address toAddr).buffer.take size = buffer)
    | _ => false

/-- The PZ.ADDRESS terminal command from the source: store the new address
only when modbusChangeAddress reports success, otherwise keep the old
one.  Returns the stored address after the command. -/
def pzAddressCommand (address toAddr : Nat) (stream : List Nat) : Nat :=
  if modbusChangeAddress address toAddr stream then toAddr else address

/-- A concrete well-formed 25-byte read-input-registers reply body (before
its CRC): address 0xF8, function 0x04, byte count 20, voltage raw 2300,
current raw 1500 (low 16-bit half first), power raw 0, energy raw 12345
(low half first), frequency raw 500, power factor raw 100, alarm off. -/
def sampleReplyBody : List Nat :=
  [0xF8, 0x04, 0x14,
   0x08, 0xFC,
   0x05, 0xDC, 0x00, 0x00,
   0x00, 0x00, 0x00, 0x00,
   0x30, 0x39, 0x00, 0x00,
   0x01, 0xF4,
   0x00, 0x64,
   0x00, 0x00]

/-- The sample reply with its Modbus CRC appended low byte first. -/
def sampleReply : List Nat :=
  sampleReplyBody ++
    [crc16modbus sampleReplyBody &&& 0xff, (crc16modbus sampleReplyBody >>> 8) &&& 0xff]

/-- The resynchronization stream of the spec: an unrelated byte 0x11, the
correct address 0xF8, a mismatched function code 0x03, then the complete
correct reply frame. -/
def resyncStream : List Nat :=
  0x11 :: 0xF8 :: 0x03 :: sampleReply

/-- A concrete exception reply body: address, function code with the
exception bit, exception code 0x02 (illegal data address). -/
def exceptionReplyBody : List Nat :=
  [0xF8, 0x84, 0x02]

/-- The exception reply with its Modbus CRC appended low byte first. -/
def exceptionReply : List Nat :=
  exceptionReplyBody ++
    [crc16modbus exceptionReplyBody &&& 0xff, (crc16modbus exceptionReplyBody >>> 8) &&& 0xff]

/-- A stream that echoes the address-change request 0xF8 -> 0x01 verbatim. -/
def echoStream : List Nat :=
  (changeAddressRequest 0xF8 0x01).buffer.take (changeAddressRequest 0xF8 0x01).size

/-- A concrete driver state holding a valid prior Reading, used to
instantiate the universally quantified preservation theorems. -/
def sampleState : DriverState :=
  { last_reading := { Reading.invalid with ok := true, energy_active := 100 }
    energy_delta := 5
    error := .ok }

/-!
Theorems settling the claims.
-/

/-- Claim C1: the CRC16 function is a pure, deterministic function of its
input byte sequence (it is a fold of crc16_update from register 0xFFFF with
polynomial 0xA001, 8 reflect-and-XOR steps per byte), and on the golden
input bytes F8 04 00 00 00 0A it returns exactly the value of the
reference (table-driven) Modbus CRC16 algorithm, 0x6464. -/
theorem c1_crc16_golden_vector :
    crc16modbus [0xF8, 0x04, 0x00, 0x00, 0x00, 0x0A]
      = crc16reference [0xF8, 0x04, 0x00, 0x00, 0x00, 0x0A] ∧
    crc16modbus [0xF8, 0x04, 0x00, 0x00, 0x00, 0x0A] = 0x6464 := by
  constructor <;> decide

/-- Claim C2: a reply of length other than 25 parses as invalid (ok =
false); a 25-byte reply parses with ok = true and fields extracted
positionally from 3 bytes in - 2-byte big-endian voltage over 10, 4-byte
current over 1000, 4-byte power over 10 and 4-byte energy over 1000 (each
4-byte field assembled from two 16-bit big-endian halves, low half
physically first), 2-byte frequency over 10, 2-byte unscaled power factor,
and an alarm flag true only when both remaining bytes are 0xFF; on the
sample reply, raw voltage 2300 gives 230 V, raw current 1500 gives 1.5 A
and raw energy 12345 gives 12.345 kWh. -/
theorem c2_parse_reading :
    (∀ (buffer : List Nat) (size : Nat), size ≠ 25 → (parseReading buffer size).ok = false) ∧
    (∀ buffer : List Nat,
      (parseReading buffer 25).ok = true ∧
      (parseReading buffer 25).voltage =
        ((((buffer.getD 3 0) <<< 8) ||| buffer.getD 4 0 : Nat) : ℚ) / 10 ∧
      (parseReading buffer 25).current =
        (((((buffer.getD 7 0) <<< 24) ||| ((buffer.getD 8 0) <<< 16))
          ||| (((buffer.getD 5 0) <<< 8) ||| buffer.getD 6 0) : Nat) : ℚ) / 1000 ∧
      (parseReading buffer 25).power_active =
        (((((buffer.getD 11 0) <<< 24) ||| ((buffer.getD 12 0) <<< 16))
          ||| (((buffer.getD 9 0) <<< 8) ||| buffer.getD 10 0) : Nat) : ℚ) / 10 ∧
      (parseReading buffer 25).energy_active =
        (((((buffer.getD 15 0) <<< 24) ||| ((buffer.getD 16 0) <<< 16))
          ||| (((buffer.getD 13 0) <<< 8) ||| buffer.getD 14 0) : Nat) : ℚ) / 1000 ∧
      (parseReading buffer 25).frequency =
        ((((buffer.getD 17 0) <<< 8) ||| buffer.getD 18 0 : Nat) : ℚ) / 10 ∧
      (parseReading buffer 25).power_factor =
        ((((buffer.getD 19 0) <<< 8) ||| buffer.getD 20 0 : Nat) : ℚ) ∧
      (parseReading buffer 25).alarm =
        ((buffer.getD 21 0 == 0xff) && (buffer.getD 22 0 == 0xff))) ∧
    (parseReading sampleReply 25).voltage = 230 ∧
    (parseReading sampleReply 25).current = 3 / 2 ∧
    (parseReading sampleReply 25).energy_active = 12345 / 1000 := by
  have hgen : ∀ buffer : List Nat,
      (parseReading buffer 25).ok = true ∧
      (parseReading buffer 25).voltage =
        ((((buffer.getD 3 0) <<< 8) ||| buffer.getD 4 0 : Nat) : ℚ) / 10 ∧
      (parseReading buffer 25).current =
        (((((buffer.getD 7 0) <<< 24) ||| ((buffer.getD 8 0) <<< 16))
          ||| (((buffer.getD 5 0) <<< 8) ||| buffer.getD 6 0) : Nat) : ℚ) / 1000 ∧
      (parseReading buffer 25).power_active =
        (((((buffer.getD 11 0) <<< 24) ||| ((buffer.getD 12 0) <<< 16))
          ||| (((buffer.getD 9 0) <<< 8) ||| buffer.getD 10 0) : Nat) : ℚ) / 10 ∧
      (parseReading buffer 25).energy_active =
        (((((buffer.getD 15 0) <<< 24) ||| ((buffer.getD 16 0) <<< 16))
          ||| (((buffer.getD 13 0) <<< 8) ||| buffer.getD 14 0) : Nat) : ℚ) / 1000 ∧
      (parseReading buffer 25).frequency =
        ((((buffer.getD 17 0) <<< 8) ||| buffer.getD 18 0 : Nat) : ℚ) / 10 ∧
      (parseReading buffer 25).power_factor =
        ((((buffer.getD 19 0) <<< 8) ||| buffer.getD 20 0 : Nat) : ℚ) ∧
      (parseReading buffer 25).alarm =
        ((buffer.getD 21 0 == 0xff) && (buffer.getD 22 0 == 0xff)) :=
    fun buffer => ⟨rfl, rfl, rfl, rfl, rfl, rfl, rfl, rfl⟩
  refine ⟨?_, hgen, ?_, ?_, ?_⟩
  · intro buffer size h
    simp [parseReading, h, Reading.invalid]
  · rw [(hgen sampleReply).2.1,
      show ((sampleReply.getD 3 0) <<< 8) ||| sampleReply.getD 4 0 = 2300 from by decide]
    norm_num
  · rw [(hgen sampleReply).2.2.1,
      show (((sampleReply.getD 7 0) <<< 24) ||| ((sampleReply.getD 8 0) <<< 16))
        ||| (((sampleReply.getD 5 0) <<< 8) ||| sampleReply.getD 6 0) = 1500 from by decide]
    norm_num
  · rw [(hgen sampleReply).2.2.2.2.1,
      show (((sampleReply.getD 15 0) <<< 24) ||| ((sampleReply.getD 16 0) <<< 16))
        ||| (((sampleReply.getD 13 0) <<< 8) ||| sampleReply.getD 14 0) = 12345 from by decide]
    norm_num

/-- Witness for c2_parse_reading at the sample reply: size 24 is rejected,
size 25 parses as valid. -/
theorem c2_parse_reading_witness :
    (parseReading sampleReply 24).ok = false ∧ (parseReading sampleReply 25).ok = true :=
  ⟨c2_parse_reading.1 sampleReply 24 (by decide), (c2_parse_reading.2.1 sampleReply).1⟩

/-- Claim C5: for samples in [0, 10000), the energy delta is
current - previous when current is at least previous, and
current + (10000 - previous) when the counter wrapped; in particular
9999.5 to 0.2 gives 0.7 and 100 to 150 gives 50 (kWh, before the unit
conversion). -/
theorem c5_energy_delta :
    (∀ last current : ℚ,
      0 ≤ last → last < 10000 → 0 ≤ current → current < 10000 →
      ((last ≤ current → energyDelta last current = current - last) ∧
       (current < last → energyDelta last current = current + (10000 - last)))) ∧
    energyDelta (19999 / 2) (1 / 5) = 7 / 10 ∧
    energyDelta 100 150 = 50 := by
  refine ⟨?_, ?_, ?_⟩
  · intro last current _ _ _ _
    constructor
    · intro h
      simp [energyDelta, not_lt.mpr h]
    · intro h
      simp [energyDelta, h]
  · norm_num [energyDelta]
  · norm_num [energyDelta]

/-- Witness for c5_energy_delta at previous 100, current 150. -/
theorem c5_energy_delta_witness :
    energyDelta 100 150 = 150 - 100 :=
  (c5_energy_delta.1 100 150 (by norm_num) (by norm_num) (by norm_num) (by norm_num)).1
    (by norm_num)

/-- Claim C6 counterexample: the finalized request with function code 0x04
and no payload (size 4) is a finalized request on which modbusExpect
returns 0, while the claimed formula 3 + 2 * register_count + 2 (register
count read big-endian from bytes 4 and 5 of the request) gives 5. -/
theorem c6_expect_counterexample :
    (adu_builder.mk2 0xF8 ReadInputCode).finalize.locked = true ∧
    (adu_builder.mk2 0xF8 ReadInputCode).finalize.buffer.getD 1 0 = ReadInputCode ∧
    modbusExpect (adu_builder.mk2 0xF8 ReadInputCode).finalize = 0 ∧
    3 + (2 * ((((adu_builder.mk2 0xF8 ReadInputCode).finalize.buffer.getD 4 0) <<< 8)
      ||| (adu_builder.mk2 0xF8 ReadInputCode).finalize.buffer.getD 5 0)) + 2 = 5 ∧
    (0 : Nat) ≠ 5 := by
  refine ⟨?_, ?_, ?_, ?_, ?_⟩ <;> decide

/-- Claim C6 as amended: for every finalized request, modbusExpect returns
3 + 2 * register_count + 2 for function code 0x04 when the request holds at
least 6 bytes and 0 for a shorter 0x04 request, the request's own length
for 0x06 and 0x42, and 0 for any other function code. -/
theorem c6_expect_amended :
    ∀ b : adu_builder, b.locked = true →
      ((b.buffer.getD 1 0 = ReadInputCode →
        (6 ≤ b.size →
          modbusExpect b
            = 3 + (2 * (((b.buffer.getD 4 0) <<< 8) ||| b.buffer.getD 5 0)) + 2) ∧
        (b.size < 6 → modbusExpect b = 0)) ∧
       (b.buffer.getD 1 0 = WriteCode → modbusExpect b = b.size) ∧
       (b.buffer.getD 1 0 = ResetEnergyCode → modbusExpect b = b.size) ∧
       (b.buffer.getD 1 0 ≠ ReadInputCode → b.buffer.getD 1 0 ≠ WriteCode →
        b.buffer.getD 1 0 ≠ ResetEnergyCode → modbusExpect b = 0)) := by
  intro b hlock
  refine ⟨?_, ?_, ?_, ?_⟩
  · intro hcode
    constructor
    · intro hsize
      simp only [modbusExpect, hlock, hcode]
      norm_num [hsize]
    · intro hsize
      simp only [modbusExpect, hlock, hcode]
      norm_num [Nat.not_le.mpr hsize]
  · intro hcode
    simp only [modbusExpect, hlock, hcode]
    norm_num [ReadInputCode, WriteCode]
  · intro hcode
    simp only [modbusExpect, hlock, hcode]
    norm_num [ReadInputCode, WriteCode, ResetEnergyCode]
  · intro h4 h6 h42
    simp only [modbusExpect, hlock]
    rw [if_neg h4, if_neg h6, if_neg h42]
    norm_num

/-- Witness for c6_expect_amended at the actual read request: 25 expected
reply bytes. -/
theorem c6_expect_amended_witness :
    modbusExpect (readRequest 0xF8)
      = 3 + (2 * ((((readRequest 0xF8).buffer.getD 4 0) <<< 8)
          ||| (readRequest 0xF8).buffer.getD 5 0)) + 2 :=
  ((c6_expect_amended (readRequest 0xF8) (by decide)).1 (by decide)).1 (by decide)

/-- Claim C3: while no bytes are accepted, a byte differing from the device
address is discarded without advancing the received-byte count; once an
address byte is accepted, a second byte equal to neither the function code
nor the function code with bit 0x80 discards the whole partial frame and
restarts scanning from byte 0; consequently the stream made of an unrelated
byte, the correct address, a mismatched function code, then a complete
correct frame yields that second frame as the successful result. -/
theorem c3_resynchronization :
    (∀ (address code c : Nat) (stream : List Nat) (expect : Nat),
      c ≠ address → 0 < expect →
      modbusReadLoop address code (c :: stream) [] expect
        = modbusReadLoop address code stream [] expect) ∧
    (∀ (address code a c : Nat) (stream : List Nat) (expect : Nat),
      c ≠ ErrorMask ||| code → c ≠ code → 1 < expect →
      modbusReadLoop address code (c :: stream) [a] expect
        = modbusReadLoop address code stream [] expect) ∧
    modbusProcessResult (readRequest 0xF8) 0xF8 resyncStream
      = ProcessResult.success sampleReply 25 := by
  refine ⟨?_, ?_, ?_⟩
  · intro address code c stream expect hne hpos
    simp [modbusReadLoop, Nat.not_le.mpr hpos, hne]
  · intro address code a c stream expect herr hcode hexp
    simp [modbusReadLoop, Nat.not_le.mpr hexp, herr, hcode]
  · decide

/-- Witness for c3_resynchronization: the unrelated byte 0x11 is discarded
from the empty frame, and the mismatched function code 0x03 after an
accepted address byte resets the frame. -/
theorem c3_resynchronization_witness :
    modbusReadLoop 0xF8 0x04 [0x11] [] 25 = modbusReadLoop 0xF8 0x04 [] [] 25 ∧
    modbusReadLoop 0xF8 0x04 [0x03] [0xF8] 25 = modbusReadLoop 0xF8 0x04 [] [] 25 :=
  ⟨c3_resynchronization.1 0xF8 0x04 0x11 [] 25 (by decide) (by decide),
   c3_resynchronization.2.1 0xF8 0x04 0xF8 0x03 [] 25 (by decide) (by decide) (by decide)⟩

/-- Claim C4: a second byte equal to the function code with bit 0x80 set
redefines the expected length to 5; the concrete 5-byte exception reply
with valid CRC classifies as a protocol exception carrying code 0x02,
which maps to the reason string for an illegal data address, and running
the read-values exchange on it leaves the retained Reading and the energy
delta unchanged (only the error field is reset at entry, the success
callback never runs). -/
theorem c4_exception_classification :
    (∀ (address code a : Nat) (stream : List Nat) (expect : Nat),
      1 < expect →
      modbusReadLoop address code ((ErrorMask ||| code) :: stream) [a] expect
        = modbusReadLoop address code stream [a, (ErrorMask ||| code) % 256] 5) ∧
    modbusProcessResult (readRequest 0xF8) 0xF8 exceptionReply
      = ProcessResult.exception 0x02 ∧
    errorToString 0x02 = "Illegal data address" ∧
    (∀ s : DriverState,
      modbusReadValues 0xF8 s exceptionReply = { s with error := SensorError.ok }) := by
  refine ⟨?_, ?_, ?_, ?_⟩
  · intro address code a stream expect hexp
    simp [modbusReadLoop, Nat.not_le.mpr hexp]
  · decide
  · decide
  · intro s
    have h : modbusProcessResult (readRequest 0xF8) 0xF8 exceptionReply
        = ProcessResult.exception 0x02 := by decide
    simp [modbusReadValues, h]

/-- Witness for c4_exception_classification: the exception byte 0x84 after
an accepted address byte rewrites the expected length to 5, and the sample
driver state passes through the exception exchange unchanged except for the
error reset. -/
theorem c4_exception_classification_witness :
    modbusReadLoop 0xF8 0x04 [ErrorMask ||| 0x04] [0xF8] 25
      = modbusReadLoop 0xF8 0x04 [] [0xF8, (ErrorMask ||| 0x04) % 256] 5 ∧
    modbusReadValues 0xF8 sampleState exceptionReply
      = { sampleState with error := SensorError.ok } :=
  ⟨c4_exception_classification.1 0xF8 0x04 0xF8 [] 25 (by decide),
   c4_exception_classification.2.2.2 sampleState⟩

/-- Claim C7: for the read-values exchange, the request is always written
in full; every failing outcome - length mismatch (timeout/framing), CRC
mismatch, protocol exception, or a successful transfer whose decode is
invalid - leaves the retained Reading and the energy delta unchanged;
a length mismatch records the generic error classification and a CRC
mismatch records the CRC classification, and the two are distinct. -/
theorem c7_failure_preserves_state :
    ∀ (address : Nat) (s : DriverState) (stream : List Nat),
      (modbusProcessRun (readRequest address) address stream).1
        = (readRequest address).buffer.take (readRequest address).size ∧
      (∀ r : ProcessResult,
        modbusProcessResult (readRequest address) address stream = r →
        ((r = ProcessResult.lengthError ∨ r = ProcessResult.crcError ∨
          (∃ e, r = ProcessResult.exception e) ∨
          (∃ buf n, r = ProcessResult.success buf n ∧ (parseReading buf n).ok = false)) →
          ((modbusReadValues address s stream).last_reading = s.last_reading ∧
           (modbusReadValues address s stream).energy_delta = s.energy_delta)) ∧
        (r = ProcessResult.lengthError →
          (modbusReadValues address s stream).error = SensorError.other) ∧
        (r = ProcessResult.crcError →
          (modbusReadValues address s stream).error = SensorError.crc)) ∧
      SensorError.crc ≠ SensorError.other := by
  intro address s stream
  refine ⟨rfl, ?_, by decide⟩
  intro r hr
  refine ⟨?_, ?_, ?_⟩
  · rintro (rfl | rfl | ⟨e, rfl⟩ | ⟨buf, n, rfl, hok⟩)
    · constructor <;> simp [modbusReadValues, hr]
    · constructor <;> simp [modbusReadValues, hr]
    · constructor <;> simp [modbusReadValues, hr]
    · constructor <;> simp [modbusReadValues, hr, hok]
  · rintro rfl
    simp [modbusReadValues, hr]
  · rintro rfl
    simp [modbusReadValues, hr]

/-- Witness for c7_failure_preserves_state: an empty stream (nothing
arrives before the timeout) is a length mismatch; the sample state keeps
its Reading and delta and records the generic error. -/
theorem c7_failure_preserves_state_witness :
    (modbusReadValues 0xF8 sampleState []).last_reading = sampleState.last_reading ∧
    (modbusReadValues 0xF8 sampleState []).energy_delta = sampleState.energy_delta ∧
    (modbusReadValues 0xF8 sampleState []).error = SensorError.other := by
  have h := (c7_failure_preserves_state 0xF8 sampleState []).2.1
    ProcessResult.lengthError (by decide)
  exact ⟨(h.1 (Or.inl rfl)).1, (h.1 (Or.inl rfl)).2, h.2.1 rfl⟩

/-- Claim C8, evaluated at the failing input: in the freshly constructed
driver no prior valid Reading exists, yet the exposed energy delta (value
index 5) is the never-initialised member, modelled by an arbitrary
indeterminate value, here 1, which differs from the 0 the claim requires. -/
theorem c8_uninitialized_energy_delta :
    (initDriverState 1 Reading.invalid).last_reading.ok = false ∧
    value (initDriverState 1 Reading.invalid) 5 = 1 ∧
    (1 : ℚ) ≠ 0 := by
  refine ⟨rfl, rfl, by norm_num⟩

/-- Claim C9, evaluated at the failing input: both append operations leave
the out-of-bounds flag untouched (their guards keep every write inside the
25-byte buffer, and a locked builder ignores appends entirely), but a
builder grown to size 25 by 23 one-byte appends is still unlocked, and
finalizing it performs the two CRC writes at indices 25 and 26, outside the
buffer. -/
theorem c9_finalize_out_of_bounds :
    (∀ (b : adu_builder) (v : Nat), (b.add8 v).oob = b.oob) ∧
    (∀ (b : adu_builder) (v : Nat), (b.add16 v).oob = b.oob) ∧
    (∀ (b : adu_builder) (v : Nat),
      ({ b with locked := true } : adu_builder).add8 v = { b with locked := true }) ∧
    (∀ (b : adu_builder) (v : Nat),
      ({ b with locked := true } : adu_builder).add16 v = { b with locked := true }) ∧
    ((fun b => adu_builder.add8 b 0)^[23] (adu_builder.mk2 0xF8 0x04)).size = 25 ∧
    ((fun b => adu_builder.add8 b 0)^[23] (adu_builder.mk2 0xF8 0x04)).locked = false ∧
    ((fun b => adu_builder.add8 b 0)^[23] (adu_builder.mk2 0xF8 0x04)).oob = false ∧
    ((fun b => adu_builder.add8 b 0)^[23] (adu_builder.mk2 0xF8 0x04)).finalize.oob
      = true := by
  refine ⟨?_, ?_, ?_, ?_, by decide, by decide, by decide, by decide⟩
  · intro b v
    unfold adu_builder.add8
    split <;> rfl
  · intro b v
    unfold adu_builder.add16
    split <;> rfl
  · intro b v
    simp [adu_builder.add8]
  · intro b v
    simp [adu_builder.add16]

/-- Claim C10: when the target differs from the stored address, the stored
address becomes the target exactly when the exchange succeeds with the peer
echoing the request verbatim, stays unchanged on any failure, and the next
frame is built with whatever address is stored after the command. -/
theorem c10_address_change :
    ∀ (address toAddr : Nat) (stream : List Nat), toAddr ≠ address →
      ((modbusChangeAddress address toAddr stream = true →
         ∃ buffer size,
           modbusProcessResult (changeAddressRequest address toAddr) address stream
             = ProcessResult.success buffer size ∧
           buffer = (changeAddressRequest address toAddr).buffer.take size) ∧
       (modbusChangeAddress address toAddr stream = false →
         pzAddressCommand address toAddr stream = address) ∧
       (modbusChangeAddress address toAddr stream = true →
         pzAddressCommand address toAddr stream = toAddr) ∧
       (adu_builder.mk2 (pzAddressCommand address toAddr stream) ReadInputCode).buffer.getD 0 0
         = pzAddressCommand address toAddr stream) := by
  intro address toAddr stream hne
  have hne2 : ¬(address = toAddr) := fun h => hne h.symm
  refine ⟨?_, ?_, ?_, rfl⟩
  · intro htrue
    unfold modbusChangeAddress at htrue
    rw [if_neg hne2] at htrue
    cases hres : modbusProcessResult (changeAddressRequest address toAddr) address stream with
    | success buf n =>
        rw [hres] at htrue
        simp only [decide_eq_true_eq] at htrue
        exact ⟨buf, n, rfl, htrue.symm⟩
    | notLocked => rw [hres] at htrue; simp at htrue
    | noReply => rw [hres] at htrue; simp at htrue
    | lengthError => rw [hres] at htrue; simp at htrue
    | crcError => rw [hres] at htrue; simp at htrue
    | exception e => rw [hres] at htrue; simp at htrue
  · intro hfalse
    simp [pzAddressCommand, hfalse]
  · intro htrue
    simp [pzAddressCommand, htrue]

/-- Witness for c10_address_change: changing 0xF8 to 0x01 with the peer
echoing the request stores 0x01. -/
theorem c10_address_change_witness :
    pzAddressCommand 0xF8 0x01 echoStream = 0x01 :=
  (c10_address_change 0xF8 0x01 echoStream (by decide)).2.2.1 (by decide)

end PZEM004TV30

